import Mathlib

/-!
Verification of the faf uReport ingest pipeline (pyfaf/ureport.py and
pyfaf/storage/report.py), embedded shallowly: Python functions become Lean
functions, the SQLAlchemy session becomes explicit state, machine words are
naturals reduced mod 2^32, and raised exceptions become `Except` errors.
-/

/-! ## SHA-1 (embeds `hashlib.sha1(...).hexdigest()` used by `hash_thread`) -/

/-- Reduce a natural number to a 32-bit word. -/
def w32 (n : Nat) : Nat := n % 4294967296

/-- Rotate a 32-bit word left by `b` bits. -/
def rotl32 (b n : Nat) : Nat := w32 (n <<< b ||| n >>> (32 - b))

/-- The SHA-1 round constant for round `i`. -/
def sha1K (i : Nat) : Nat :=
  if i < 20 then 1518500249
  else if i < 40 then 1859775393
  else if i < 60 then 2400959708
  else 3395469782

/-- The SHA-1 round mixing function for round `i`. -/
def sha1F (i b c d : Nat) : Nat :=
  if i < 20 then (b &&& c) ||| ((b ^^^ 4294967295) &&& d)
  else if i < 40 then b ^^^ c ^^^ d
  else if i < 60 then (b &&& c) ||| (b &&& d) ||| (c &&& d)
  else b ^^^ c ^^^ d

/-- Extend a 16-word block with `k` further schedule words. -/
def sha1Schedule (ws : List Nat) : Nat → List Nat
  | 0 => ws
  | k + 1 =>
    let n := ws.length
    let x := rotl32 1 ((ws.getD (n - 3) 0) ^^^ (ws.getD (n - 8) 0) ^^^
                       (ws.getD (n - 14) 0) ^^^ (ws.getD (n - 16) 0))
    sha1Schedule (ws ++ [x]) k

/-- Run the 80 SHA-1 rounds over the schedule words, starting at round `i`. -/
def sha1Loop : List Nat → Nat → Nat × Nat × Nat × Nat × Nat → Nat × Nat × Nat × Nat × Nat
  | [], _, st => st
  | wi :: rest, i, (a, b, c, d, e) =>
    let temp := w32 (rotl32 5 a + sha1F i b c d + e + sha1K i + wi)
    sha1Loop rest (i + 1) (temp, a, rotl32 30 b, c, d)

/-- Compress one 16-word block into the running state. -/
def sha1Block (h : Nat × Nat × Nat × Nat × Nat) (block : List Nat) :
    Nat × Nat × Nat × Nat × Nat :=
  let w := sha1Schedule block 64
  let r := sha1Loop w 0 h
  (w32 (h.1 + r.1), w32 (h.2.1 + r.2.1), w32 (h.2.2.1 + r.2.2.1),
   w32 (h.2.2.2.1 + r.2.2.2.1), w32 (h.2.2.2.2 + r.2.2.2.2))

/-- Group a big-endian byte list into 32-bit words. -/
def bytesToWords : List Nat → List Nat
  | b0 :: b1 :: b2 :: b3 :: rest =>
    (b0 <<< 24 ||| b1 <<< 16 ||| b2 <<< 8 ||| b3) :: bytesToWords rest
  | _ => []

/-- Split a word list into 16-word blocks.  The padded message is always a
multiple of 16 words; a shorter remainder would become one final block. -/
def chunk16 : List Nat → List (List Nat)
  | a1 :: a2 :: a3 :: a4 :: a5 :: a6 :: a7 :: a8 ::
    a9 :: a10 :: a11 :: a12 :: a13 :: a14 :: a15 :: a16 :: rest =>
    [a1, a2, a3, a4, a5, a6, a7, a8, a9, a10, a11, a12, a13, a14, a15, a16] ::
      chunk16 rest
  | [] => []
  | short => [short]

/-- SHA-1 padding: append 0x80, zeros to 56 mod 64 bytes, and the 64-bit
big-endian bit length. -/
def sha1Pad (msg : List Nat) : List Nat :=
  let len := msg.length
  let zeros := (120 - ((len + 1) % 64)) % 64
  let bitlen := 8 * len
  msg ++ [128] ++ List.replicate zeros 0 ++
    (List.range 8).map (fun i => (bitlen >>> (8 * (7 - i))) % 256)

/-- The five 32-bit state words of the SHA-1 digest of a byte message. -/
def sha1Words (msg : List Nat) : List Nat :=
  let blocks := chunk16 (bytesToWords (sha1Pad msg))
  let h := blocks.foldl sha1Block
    (1732584193, 4023233417, 2562383102, 271733878, 3285377520)
  [h.1, h.2.1, h.2.2.1, h.2.2.2.1, h.2.2.2.2]

/-- Lower-case hexadecimal digit. -/
def hexDigit (n : Nat) : Char :=
  if n < 10 then Char.ofNat (48 + n) else Char.ofNat (97 + n - 10)

/-- Eight-digit lower-case hexadecimal rendering of a 32-bit word. -/
def word32Hex (n : Nat) : String :=
  String.mk ((List.range 8).map (fun i => hexDigit ((n >>> (4 * (7 - i))) % 16)))

/-- Byte encoding of a string.  All strings fed to the hash are ASCII (the
validation regexes admit only ASCII characters), so code points coincide
with UTF-8 bytes. -/
def strBytes (s : String) : List Nat := s.data.map Char.toNat

/-- Embeds `hashlib.sha1(s).hexdigest()`: the 40-character lower-case
hexadecimal SHA-1 digest of a string. -/
def sha1_hexdigest (s : String) : String :=
  String.join ((sha1Words (strBytes s)).map word32Hex)

/-! ## Crash-thread extraction and hashing (ureport.py lines 139-181) -/

/-- One element of `core_backtrace` after schema validation.  `funcname` and
`funchash` are optional in the schema; `none` models the key being absent
(a present key can never hold Python `None`, since validation requires the
value to be a `str`). -/
structure Frame where
  thread : Int
  frame : Int
  buildid : String
  path : String
  offset : Int
  funcname : Option String
  funchash : Option String
deriving DecidableEq, Repr

/-- The parts of a validated uReport consulted by the hashing code. -/
structure UReport where
  crash_thread : Int
  core_backtrace : List Frame
deriving DecidableEq, Repr

/-- Insert a frame into a list already sorted by frame index, before the
first element whose index is not smaller: inserting earlier elements from
the right this way reproduces the stability of Python `sorted`. -/
def insertFrame (x : Frame) : List Frame → List Frame
  | [] => [x]
  | y :: ys => if y.frame < x.frame then y :: insertFrame x ys else x :: y :: ys

/-- Stable sort by ascending frame index, as `sorted(result, key=lambda x:
x["frame"])` does. -/
def sortFrames : List Frame → List Frame
  | [] => []
  | x :: xs => insertFrame x (sortFrames xs)

/-- Embeds `get_crash_thread`: keep the frames whose `thread` equals the
report's `crash_thread`, sorted ascending by frame index. -/
def get_crash_thread (ureport : UReport) : List Frame :=
  sortFrames (ureport.core_backtrace.filter
    (fun frame => frame.thread == ureport.crash_thread))

/-- Embeds the `"{0} @ {1}"` frame formatting of `hash_thread`. -/
def frameLine (nameOrHash path : String) : String := nameOrHash ++ " @ " ++ path

/-- Embeds `hash_thread`.  The Python function mutates the `hashbase` list it
is given (`hashbase.extend(...)`) before digesting the newline join; we model
that in-place extension by also returning the extended list.  Raised
exceptions become `Except.error`. -/
def hash_thread (thread : List Frame) (hashbase : List String) :
    Except String ((String × String) × List String) :=
  let hasnames := thread.all (fun x => x.funcname.isSome)
  let hashashes := thread.all (fun x => x.funchash.isSome)
  if hasnames then
    let hb := hashbase ++ thread.map (fun x => frameLine (x.funcname.getD "") x.path)
    .ok (("NAMES", sha1_hexdigest (String.intercalate "\n" hb)), hb)
  else if hashashes then
    let hb := hashbase ++ thread.map (fun x => frameLine (x.funchash.getD "") x.path)
    .ok (("HASHES", sha1_hexdigest (String.intercalate "\n" hb)), hb)
  else
    .error "either function names or function hashes are required"

/-- Embeds `get_report_hash`: hash the crash thread truncated to its first 16
frames, seeding the hash base with the component name of the installed
package (`package.build.component.name`).  A fresh seed list is passed on
every call, so the result is a pure function of the report and component. -/
def get_report_hash (ureport : UReport) (componentName : String) :
    Except String (String × String) :=
  (hash_thread ((get_crash_thread ureport).take 16) [componentName]).map Prod.fst

/-! ## Report rows and the add_report update paths (ureport.py lines 183-293,
storage/report.py lines 33-44) -/

/-- The columns of the `Report` row touched by `add_report`.  Timestamps are
modelled as integers with the order of `datetime`. -/
structure Report where
  id : Int
  rtype : String
  first_occurence : Int
  last_occurence : Int
  count : Int
  component : String
deriving DecidableEq, Repr

/-- ASCII upper-casing of one character. -/
def upperCh (c : Char) : Char :=
  if Char.ofNat 97 ≤ c && c ≤ Char.ofNat 122 then Char.ofNat (c.toNat - 32) else c

/-- ASCII upper-casing, as Python `str.upper` acts on the ASCII type tags. -/
def pyUpper (s : String) : String := String.mk (s.data.map upperCh)

/-- Embeds the report-creation branch of `add_report` (lines 203-209): a new
report gets `type = ureport["type"].upper()`, both occurrence timestamps set
to `utctime`, the supplied `count`, and the component of the installed
package.  The id is assigned by the database on insert. -/
def report_create (id : Int) (utype : String) (utctime : Int) (count : Int)
    (componentName : String) : Report :=
  { id := id
    rtype := pyUpper utype
    first_occurence := utctime
    last_occurence := utctime
    count := count
    component := componentName }

/-- Embeds the matched-report branch of `add_report` (lines 271-276):
`report.count += count`, then `if report.last_occurence < utctime` update the
last occurrence, `elif report.first_occurence > utctime` update the first. -/
def report_update (report : Report) (utctime : Int) (count : Int) : Report :=
  let report := { report with count := report.count + count }
  if report.last_occurence < utctime then
    { report with last_occurence := utctime }
  else if report.first_occurence > utctime then
    { report with first_occurence := utctime }
  else
    report

/-- A `Report` row joined with its backtrace hash (`ReportBtHash.type`,
`ReportBtHash.hash`), as traversed by the matcher query of `add_report`. -/
structure ReportRow where
  report : Report
  bthash_type : String
  bthash_hash : String
deriving DecidableEq, Repr

/-- Embeds the matcher lookup of `add_report` (lines 193-197): filter the
joined rows on hash, hash type and component, and take `.first()`.  The query
has no ordering clause, so `.first()` yields the first matching row in the
store's enumeration order. -/
def report_lookup (rows : List ReportRow) (hash_hash hash_type componentName : String) :
    Option Report :=
  (rows.find? (fun row =>
    row.bthash_hash == hash_hash && row.bthash_type == hash_type &&
      row.report.component == componentName)).map ReportRow.report

/-! ## Symbol interning (ureport.py lines 221-270) -/

/-- The `Symbol` columns written by `add_report` (the Lean name `Symbol` is
already taken, so the row type is called `SymbolRow`).  The code sets
`normalized_path = frame["path"]` (its normalization is still a TODO). -/
structure SymbolRow where
  name : String
  normalized_path : String
deriving DecidableEq, Repr

/-- The `SymbolSource` columns written by `add_report`. -/
structure SymbolSource where
  build_id : String
  path : String
  offset : Int
  hash : Option String
  symbol : Option SymbolRow
deriving DecidableEq, Repr

/-- The state `add_report` threads through the frame loop: the durable store
plus the entities added to the session during this ingest (`db.session.new`).
Queries are issued through a session with autoflush, so they see the pending
entities of the same transaction as well as the durable rows. -/
structure InternState where
  dbSymbols : List SymbolRow
  dbSources : List SymbolSource
  newSymbols : List SymbolRow
  newSources : List SymbolSource
deriving DecidableEq, Repr

/-- The natural-key comparison of the `SymbolSource` scan and query:
`build_id`, `path` and `offset` all equal to the frame's. -/
def sourceKeyMatches (ss : SymbolSource) (frame : Frame) : Bool :=
  ss.build_id == frame.buildid && ss.path == frame.path && ss.offset == frame.offset

/-- Embeds `db.session.query(Symbol).filter(name, normalized_path).first()`:
with autoflush the pending symbols of this ingest are visible too. -/
def symbol_query (s : InternState) (name normalizedPath : String) : Option SymbolRow :=
  (s.dbSymbols ++ s.newSymbols).find?
    (fun sym => sym.name == name && sym.normalized_path == normalizedPath)

/-- Embeds the body of the frame loop of `add_report` (lines 222-270),
restricted to its effect on symbols and symbol sources: first scan
`db.session.new` for a `SymbolSource` with the frame's natural key, else
query the store; when absent, create the source (recording `funchash` when
present) and, when the frame carries a `funcname`, find or create its
`Symbol` by (name, normalized path). -/
def add_frame (s : InternState) (frame : Frame) : InternState :=
  match s.newSources.find? (fun ss => sourceKeyMatches ss frame) with
  | some _ => s
  | none =>
    match (s.dbSources ++ s.newSources).find? (fun ss => sourceKeyMatches ss frame) with
    | some _ => s
    | none =>
      match frame.funcname with
      | none =>
        let ss : SymbolSource :=
          { build_id := frame.buildid, path := frame.path, offset := frame.offset
            hash := frame.funchash, symbol := none }
        { s with newSources := s.newSources ++ [ss] }
      | some name =>
        let normalized_path := frame.path
        match symbol_query s name normalized_path with
        | some symbol =>
          let ss : SymbolSource :=
            { build_id := frame.buildid, path := frame.path, offset := frame.offset
              hash := frame.funchash, symbol := some symbol }
          { s with newSources := s.newSources ++ [ss] }
        | none =>
          let symbol : SymbolRow := { name := name, normalized_path := normalized_path }
          let ss : SymbolSource :=
            { build_id := frame.buildid, path := frame.path, offset := frame.offset
              hash := frame.funchash, symbol := some symbol }
          { s with newSymbols := s.newSymbols ++ [symbol]
                   newSources := s.newSources ++ [ss] }

/-- The whole frame loop: fold `add_frame` over the crash thread, starting
with an empty pending set. -/
def intern_frames (dbSymbols : List SymbolRow) (dbSources : List SymbolSource)
    (frames : List Frame) : InternState :=
  frames.foldl add_frame
    { dbSymbols := dbSymbols, dbSources := dbSources, newSymbols := [], newSources := [] }

/-! ## Uptime bucketing (ureport.py lines 290-293) -/

/-- Python `int()` applied to a number: truncation toward zero. -/
def pyint (q : ℚ) : Int := if 0 ≤ q then ⌊q⌋ else -⌊-q⌋

/-- Embeds the uptime bucketing of `add_report`.  `uptime` is an integer (the
schema checks its type), compared against the literal `0.1`; the logarithm
branch computes `int(math.log(uptime, 10))`, where `math.log(x, 10)` is the
floating-point quotient `log(x)/log(10)`.  The parameter `log10f` supplies
the exact rational value returned by that floating-point computation. -/
def uptime_exp_code (log10f : Int → ℚ) (uptime : Int) : Int :=
  if (uptime : ℚ) < 1 / 10 then -1
  else pyint (log10f uptime)

/-! ## Schema validation (ureport.py lines 8-137) -/

/-- The Python values that can occur in a uReport payload. -/
inductive PyVal where
  | int (n : Int)
  | str (s : String)
  | list (xs : List PyVal)
  | dict (entries : List (String × PyVal))

mutual
/-- A checker node.  Scalar nodes carry the expected type (and the regex for
strings), `listC` applies its element checker to every element, and `dictC`
carries the field map (name, mandatory flag, sub-checker) as a `Fields`
spine.  This covers both the wrapped form with an explicit "type"/"checker"
pair and the bare field maps: `validate` unwraps the former before walking
the fields. -/
inductive Checker where
  | intC : Checker
  | strC (re : String → Bool) : Checker
  | listC (elem : Checker) : Checker
  | dictC (fields : Fields) : Checker
inductive Fields where
  | nil : Fields
  | fcons (name : String) (mand : Bool) (sub : Checker) (rest : Fields) : Fields
end

/-- Build a field spine from a list of (name, mandatory, checker) triples. -/
def fieldsOfList : List (String × Bool × Checker) → Fields
  | [] => Fields.nil
  | (name, mand, sub) :: rest => Fields.fcons name mand sub (fieldsOfList rest)

/-- Lookup in a Python dict modelled as an association list. -/
def plookup (key : String) : List (String × PyVal) → Option PyVal
  | [] => none
  | (k, v) :: rest => if k == key then some v else plookup key rest

/-- `clone.pop(key)`: the entries left after removing `key`. -/
def premove (key : String) (entries : List (String × PyVal)) : List (String × PyVal) :=
  entries.filter (fun kv => !(kv.1 == key))

/-- Sequence element results left to right, stopping at the first error, as
the `for elem in obj` loop of `validate` does. -/
def seqErrs : List (Except String Unit) → Except String Unit
  | [] => .ok ()
  | r :: rest => do r; seqErrs rest

mutual

/-- Embeds `validate` (ureport.py lines 91-137).  Raised exceptions become
`Except.error`; the message formatting is simplified but keeps the field
names the Python messages carry. -/
def validate : PyVal → Checker → Except String Unit
  | v, Checker.intC =>
    match v with
    | PyVal.int _ => .ok ()
    | _ => .error "typecheck failed"
  | v, Checker.strC re =>
    match v with
    | PyVal.str s =>
      if re s then .ok () else .error "string contains illegal characters"
    | _ => .error "typecheck failed"
  | v, Checker.listC elemChecker =>
    match v with
    | PyVal.list xs => seqErrs (xs.map (fun x => validate x elemChecker))
    | _ => .error "typecheck failed"
  | v, Checker.dictC fields =>
    match v with
    | PyVal.dict entries => validateFields entries fields
    | _ => .error "typecheck failed"

/-- The dict branch of `validate`: walk the checker fields, popping each from
the clone; a missing mandatory field is an error, a missing optional field is
skipped, nested errors are wrapped with the field name, and entries left in
the clone at the end are `unknown elements present`. -/
def validateFields : List (String × PyVal) → Fields → Except String Unit
  | clone, Fields.nil =>
    if clone.isEmpty then .ok ()
    else .error ("unknown elements present: " ++ String.intercalate ", " (clone.map Prod.fst))
  | clone, Fields.fcons key mand sub rest =>
    match plookup key clone with
    | none =>
      if mand then .error ("missing mandatory element " ++ key)
      else validateFields clone rest
    | some value =>
      match validate value sub with
      | .ok () => validateFields (premove key clone) rest
      | .error msg => .error ("error validating " ++ key ++ ": " ++ msg)

end

/-! ### The regular expressions of ureport.py, as full-match predicates -/

/-- ASCII alphanumeric character. -/
def isAlnumCh (c : Char) : Bool :=
  (Char.ofNat 48 ≤ c && c ≤ Char.ofNat 57) ||
  (Char.ofNat 97 ≤ c && c ≤ Char.ofNat 122) ||
  (Char.ofNat 65 ≤ c && c ≤ Char.ofNat 90)

/-- `RE_PACKAGE`: one or more of alphanumerics and `_ . + - ~`. -/
def re_package (s : String) : Bool :=
  !s.data.isEmpty && s.data.all (fun c =>
    isAlnumCh c || c == '_' || c == '.' || c == '+' || c == '-' || c == '~')

/-- `RE_PHRASE`: one or more of alphanumerics and `space : _ / - + * . ( ) ? !`. -/
def re_phrase (s : String) : Bool :=
  !s.data.isEmpty && s.data.all (fun c =>
    isAlnumCh c || c == ' ' || c == ':' || c == '_' || c == '/' || c == '-' ||
    c == '+' || c == '*' || c == '.' || c == '(' || c == ')' || c == '?' || c == '!')

/-- `RE_EXEC`: a leading slash followed by one or more of alphanumerics and
`/ _ . - +`. -/
def re_exec (s : String) : Bool :=
  match s.data with
  | '/' :: rest =>
    !rest.isEmpty && rest.all (fun c =>
      isAlnumCh c || c == '/' || c == '_' || c == '.' || c == '-' || c == '+')
  | _ => false

/-- Hexadecimal digit. -/
def isHexCh (c : Char) : Bool :=
  (Char.ofNat 48 ≤ c && c ≤ Char.ofNat 57) ||
  (Char.ofNat 97 ≤ c && c ≤ Char.ofNat 102) ||
  (Char.ofNat 65 ≤ c && c ≤ Char.ofNat 70)

/-- `RE_HEX`: an optional `0x` or `0X` prefix, then one or more hex digits. -/
def re_hex (s : String) : Bool :=
  let cs := match s.data with
    | '0' :: 'x' :: rest => rest
    | '0' :: 'X' :: rest => rest
    | cs => cs
  !cs.isEmpty && cs.all isHexCh

/-- `RE_FUNCNAME`: one or more of alphanumerics and
`_ < > : * + = ~ @ ! space & ( ) , / | ^ - . [ ]`. -/
def re_funcname (s : String) : Bool :=
  !s.data.isEmpty && s.data.all (fun c =>
    isAlnumCh c || c == '_' || c == '<' || c == '>' || c == ':' || c == '*' ||
    c == '+' || c == '=' || c == '~' || c == '@' || c == '!' || c == ' ' ||
    c == '&' || c == '(' || c == ')' || c == ',' || c == '/' || c == '|' ||
    c == '^' || c == '-' || c == '.' || c == '[' || c == ']')

/-- Split a character list on a separator, keeping empty groups, as Python
`str.split` and `String.splitOn` do. -/
def splitCh (sep : Char) : List Char → List (List Char)
  | [] => [[]]
  | c :: rest =>
    let ps := splitCh sep rest
    if c == sep then [] :: ps
    else
      match ps with
      | p :: tail => (c :: p) :: tail
      | [] => [[c]]

/-- `RE_SEPOL`: four or five nonempty colon-separated groups of
alphanumerics and `_ . -`. -/
def re_sepol (s : String) : Bool :=
  let parts := splitCh ':' s.data
  (parts.length == 4 || parts.length == 5) && parts.all (fun p =>
    !p.isEmpty && p.all (fun c =>
      isAlnumCh c || c == '_' || c == '.' || c == '-'))

/-- ASCII lower-casing of one character. -/
def lowerCh (c : Char) : Char :=
  if Char.ofNat 65 ≤ c && c ≤ Char.ofNat 90 then Char.ofNat (c.toNat + 32) else c

/-- ASCII lower-casing, as Python `str.lower` acts on the ASCII payload
strings admitted by the schema. -/
def pyLower (s : String) : String := String.mk (s.data.map lowerCh)

/-- A case-insensitive alternation regex such as `(python|userspace|kerneloops)`
with `re.IGNORECASE`: the lower-cased string must be one of the options. -/
def re_ci_enum (options : List String) (s : String) : Bool :=
  options.contains (pyLower s)

/-! ### The checker constants of ureport.py (lines 17-89) -/

/-- `PACKAGE_CHECKER`. -/
def PACKAGE_CHECKER : List (String × Bool × Checker) :=
  [("name", true, Checker.strC re_package),
   ("version", true, Checker.strC re_package),
   ("release", true, Checker.strC re_package),
   ("architecture", true, Checker.strC re_phrase),
   ("epoch", true, Checker.intC)]

/-- `RELATED_PACKAGES_ELEM_CHECKER`. -/
def RELATED_PACKAGES_ELEM_CHECKER : List (String × Bool × Checker) :=
  [("installed_package", true, Checker.dictC (fieldsOfList PACKAGE_CHECKER)),
   ("running_package", false, Checker.dictC (fieldsOfList PACKAGE_CHECKER))]

/-- `NV_CHECKER`. -/
def NV_CHECKER : List (String × Bool × Checker) :=
  [("name", true, Checker.strC re_phrase),
   ("version", true, Checker.strC re_package)]

/-- `SELINUX_CHECKER`. -/
def SELINUX_CHECKER : List (String × Bool × Checker) :=
  [("mode", true, Checker.strC (re_ci_enum ["enforcing", "permissive", "disabled"])),
   ("context", false, Checker.strC re_sepol),
   ("policy_package", false, Checker.dictC (fieldsOfList PACKAGE_CHECKER))]

/-- `COREBT_ELEM_CHECKER`. -/
def COREBT_ELEM_CHECKER : List (String × Bool × Checker) :=
  [("thread", true, Checker.intC),
   ("frame", true, Checker.intC),
   ("buildid", true, Checker.strC re_hex),
   ("path", true, Checker.strC re_exec),
   ("offset", true, Checker.intC),
   ("funcname", false, Checker.strC re_funcname),
   ("funchash", false, Checker.strC re_hex)]

/-- `OS_STATE_CHECKER`. -/
def OS_STATE_CHECKER : List (String × Bool × Checker) :=
  [("suspend", true, Checker.strC (re_ci_enum ["yes", "no"])),
   ("boot", true, Checker.strC (re_ci_enum ["yes", "no"])),
   ("login", true, Checker.strC (re_ci_enum ["yes", "no"])),
   ("logout", true, Checker.strC (re_ci_enum ["yes", "no"])),
   ("shutdown", true, Checker.strC (re_ci_enum ["yes", "no"]))]

/-- `UREPORT_CHECKER`, the top-level schema.  `PROC_STATUS_CHECKER` and
`PROC_LIMITS_CHECKER` are the empty field maps of the source. -/
def UREPORT_CHECKER : List (String × Bool × Checker) :=
  [("type", true, Checker.strC (re_ci_enum ["python", "userspace", "kerneloops"])),
   ("reason", true, Checker.strC re_phrase),
   ("uptime", true, Checker.intC),
   ("executable", true, Checker.strC re_exec),
   ("installed_package", true, Checker.dictC (fieldsOfList PACKAGE_CHECKER)),
   ("running_package", false, Checker.dictC (fieldsOfList PACKAGE_CHECKER)),
   ("related_packages", true, Checker.listC (Checker.dictC (fieldsOfList RELATED_PACKAGES_ELEM_CHECKER))),
   ("os", true, Checker.dictC (fieldsOfList NV_CHECKER)),
   ("architecture", true, Checker.strC re_phrase),
   ("reporter", true, Checker.dictC (fieldsOfList NV_CHECKER)),
   ("crash_thread", true, Checker.intC),
   ("core_backtrace", true, Checker.listC (Checker.dictC (fieldsOfList COREBT_ELEM_CHECKER))),
   ("user_type", false, Checker.strC (re_ci_enum ["root", "nologin", "local", "remote"])),
   ("os_state", false, Checker.dictC (fieldsOfList OS_STATE_CHECKER)),
   ("selinux", false, Checker.dictC (fieldsOfList SELINUX_CHECKER)),
   ("proc_status", false, Checker.dictC Fields.nil),
   ("proc_limits", false, Checker.dictC Fields.nil)]

/-! ### The example payload of ureport.py (lines 381-428) -/

/-- The example uReport from the module's debugging section, used as a
concrete valid payload.  The optional fields `running_package`, `os_state`,
`proc_status` and `proc_limits` are absent from it. -/
def example_ureport_entries : List (String × PyVal) :=
  [("type", PyVal.str "python"),
   ("reason", PyVal.str "TypeError"),
   ("uptime", PyVal.int 1),
   ("executable", PyVal.str "/usr/bin/faf-btserver-cgi"),
   ("installed_package", PyVal.dict
     [("name", PyVal.str "faf"), ("version", PyVal.str "0.4"),
      ("release", PyVal.str "1.fc16"), ("epoch", PyVal.int 0),
      ("architecture", PyVal.str "noarch")]),
   ("related_packages", PyVal.list
     [PyVal.dict
       [("installed_package", PyVal.dict
         [("name", PyVal.str "python"), ("version", PyVal.str "2.7.2"),
          ("release", PyVal.str "4.fc16"), ("epoch", PyVal.int 0),
          ("architecture", PyVal.str "x86_64")])]]),
   ("os", PyVal.dict [("name", PyVal.str "Fedora"), ("version", PyVal.str "16")]),
   ("architecture", PyVal.str "x86_64"),
   ("reporter", PyVal.dict
     [("name", PyVal.str "abrt"), ("version", PyVal.str "2.0.7-2.fc16")]),
   ("crash_thread", PyVal.int 0),
   ("core_backtrace", PyVal.list
     [PyVal.dict
       [("thread", PyVal.int 0), ("frame", PyVal.int 1),
        ("buildid", PyVal.str "f76f656ab6e1b558fc78d0496f1960071565b0aa"),
        ("offset", PyVal.int 24),
        ("path", PyVal.str "/usr/bin/faf-btserver-cgi"),
        ("funcname", PyVal.str "<module>")],
      PyVal.dict
       [("thread", PyVal.int 0), ("frame", PyVal.int 2),
        ("buildid", PyVal.str "b07daccd370e885bf3d459984a4af09eb889360a"),
        ("offset", PyVal.int 190),
        ("path", PyVal.str "/usr/lib64/python2.7/re.py"),
        ("funcname", PyVal.str "compile")],
      PyVal.dict
       [("thread", PyVal.int 0), ("frame", PyVal.int 3),
        ("buildid", PyVal.str "b07daccd370e885bf3d459984a4af09eb889360a"),
        ("offset", PyVal.int 241),
        ("path", PyVal.str "/usr/lib64/python2.7/re.py"),
        ("funcname", PyVal.str "_compile")]]),
   ("user_type", PyVal.str "root"),
   ("selinux", PyVal.dict
     [("mode", PyVal.str "permissive"),
      ("context", PyVal.str "unconfined_u:unconfined_r:unconfined_t:s0"),
      ("policy_package", PyVal.dict
        [("name", PyVal.str "selinux-policy"), ("version", PyVal.str "3.10.0"),
         ("release", PyVal.str "2.fc16"), ("epoch", PyVal.int 0),
         ("architecture", PyVal.str "noarch")])])]

/-- The example payload as a Python value. -/
def example_ureport : PyVal := PyVal.dict example_ureport_entries

/-- The example payload with its `core_backtrace` entry removed. -/
def example_without_corebt : PyVal :=
  PyVal.dict (example_ureport_entries.filter (fun kv => !(kv.1 == "core_backtrace")))

/-- The example payload with an extra field `foo` that the schema does not
declare. -/
def example_with_extra_field : PyVal :=
  PyVal.dict (example_ureport_entries ++ [("foo", PyVal.int 1)])

/-! ## Derived notions and concrete inputs used by the theorems -/

/-- The per-frame data the signature hash consumes: the optional function
name, the optional function hash, and the binary path. -/
def frameSig (x : Frame) : Option String × Option String × String :=
  (x.funcname, x.funchash, x.path)

/-- The natural key of a `SymbolSource`: (build id, path, offset). -/
def sourceKey (ss : SymbolSource) : String × String × Int :=
  (ss.build_id, ss.path, ss.offset)

/-- The natural key of a symbol: (function name, normalized path). -/
def symbolKey (sym : SymbolRow) : String × String :=
  (sym.name, sym.normalized_path)

/-- The Report invariant of the data model: the first occurrence does not
follow the last, and the count is at least one. -/
def report_invariant (r : Report) : Prop :=
  r.first_occurence ≤ r.last_occurence ∧ 1 ≤ r.count

/-- A crash-thread frame with index `i`, used to build concrete threads. -/
def frame_mk (i : Int) : Frame :=
  { thread := 0, frame := i, buildid := "f76f656a", path := "/usr/bin/crash"
    offset := i, funcname := some "fn", funchash := none }

/-- A report whose crash thread has 30 frames. -/
def u_thread30 : UReport :=
  { crash_thread := 0, core_backtrace := (List.range 30).map (fun i => frame_mk i) }

/-- The same thread truncated to its first 16 frames. -/
def u_thread16 : UReport :=
  { crash_thread := 0, core_backtrace := (List.range 16).map (fun i => frame_mk i) }

/-- A single-frame report. -/
def u_hash_a : UReport :=
  { crash_thread := 0, core_backtrace :=
    [{ thread := 0, frame := 1, buildid := "aa11", path := "/usr/bin/x"
       offset := 5, funcname := some "main", funchash := none }] }

/-- The same report with a different build id and offset: the fields the
hash ignores. -/
def u_hash_b : UReport :=
  { crash_thread := 0, core_backtrace :=
    [{ thread := 0, frame := 1, buildid := "bb22", path := "/usr/bin/x"
       offset := 99, funcname := some "main", funchash := none }] }

/-- A frame carrying only a function name. -/
def c10_frame1 : Frame :=
  { thread := 0, frame := 1, buildid := "aa", path := "/p1", offset := 0
    funcname := some "alpha", funchash := none }

/-- A second frame carrying only a function name. -/
def c10_frame2 : Frame :=
  { thread := 0, frame := 1, buildid := "bb", path := "/p2", offset := 0
    funcname := some "beta", funchash := none }

/-- A stored report with id 1. -/
def c9_report_low : Report :=
  { id := 1, rtype := "PYTHON", first_occurence := 0, last_occurence := 0
    count := 1, component := "faf" }

/-- A second stored report with id 2 sharing the same signature key. -/
def c9_report_high : Report :=
  { id := 2, rtype := "PYTHON", first_occurence := 0, last_occurence := 0
    count := 1, component := "faf" }

/-- A store in which two reports share one (hash, hash-type, component) key,
enumerated with the higher id first. -/
def c9_rows : List ReportRow :=
  [{ report := c9_report_high, bthash_type := "NAMES", bthash_hash := "aa11" },
   { report := c9_report_low, bthash_type := "NAMES", bthash_hash := "aa11" }]

/-- The value the IEEE-754 evaluation of `math.log(x, 10)` yields at 1000:
the double quotient `log(1000)/log(10)` rounds to
2.9999999999999995559..., strictly below 3. -/
def flog1000 : Int → ℚ := fun _ => 2999999999999999 / 1000000000000000

/-- A report used as a concrete matched-update input. -/
def c4_report : Report :=
  { id := 7, rtype := "PYTHON", first_occurence := 5, last_occurence := 10
    count := 3, component := "faf" }

/-! ## Theorems -/

/-- Claim C4: for every existing Report (which satisfies the data-model
invariant `first_occurence ≤ last_occurence`), the matched-ingest branch of
`add_report` increases the count by exactly the increment, sets the last
occurrence to the maximum of the old value and the ingest time, and the
first occurrence to the minimum. -/
theorem claim_C4_matched_update (report : Report) (utctime count : Int)
    (hinv : report.first_occurence ≤ report.last_occurence) :
    (report_update report utctime count).count = report.count + count ∧
    (report_update report utctime count).last_occurence =
      max report.last_occurence utctime ∧
    (report_update report utctime count).first_occurence =
      min report.first_occurence utctime := by
  simp only [report_update]
  split_ifs with h1 h2 <;>
    refine ⟨rfl, ?_, ?_⟩ <;> simp <;> omega

/-- Witness for C4 at a concrete report and ingest time. -/
theorem claim_C4_matched_update_witness :
    (report_update c4_report 12 1).count = c4_report.count + 1 ∧
    (report_update c4_report 12 1).last_occurence = max c4_report.last_occurence 12 ∧
    (report_update c4_report 12 1).first_occurence = min c4_report.first_occurence 12 :=
  claim_C4_matched_update c4_report 12 1 (by decide)

/-- Claim C5: report creation sets `first_occurence = last_occurence =
utctime` and the supplied count, establishing the invariant
`first_occurence ≤ last_occurence ∧ count ≥ 1` when the increment is
positive; the matched-update branch preserves the invariant and can only
increase the count. -/
theorem claim_C5_report_invariant (id : Int) (utype componentName : String)
    (utctime count : Int) (report : Report) (t c : Int) :
    ((report_create id utype utctime count componentName).first_occurence = utctime ∧
     (report_create id utype utctime count componentName).last_occurence = utctime ∧
     (report_create id utype utctime count componentName).count = count) ∧
    (1 ≤ count →
      report_invariant (report_create id utype utctime count componentName)) ∧
    (report_invariant report → 1 ≤ c →
      report_invariant (report_update report t c) ∧
      report.count < (report_update report t c).count) := by
  refine ⟨⟨rfl, rfl, rfl⟩, ?_, ?_⟩
  · intro h
    exact ⟨le_refl _, h⟩
  · rintro ⟨hle, hcount⟩ hc
    simp only [report_update, report_invariant]
    split_ifs with h1 h2 <;> simp <;> omega

/-- Witness for C5 at concrete creation and update inputs. -/
theorem claim_C5_report_invariant_witness :
    report_invariant (report_create 1 "python" 4 1 "faf") ∧
    (report_invariant (report_update c4_report 12 1) ∧
     c4_report.count < (report_update c4_report 12 1).count) :=
  ⟨(claim_C5_report_invariant 1 "python" "faf" 4 1 c4_report 12 1).2.1 (by decide),
   (claim_C5_report_invariant 1 "python" "faf" 4 1 c4_report 12 1).2.2
     (by exact ⟨by decide, by decide⟩) (by decide)⟩

/-- Claim C8: the signature depends only on the first 16 frames of the
sorted crash thread; two reports whose sorted crash threads agree on those
frames hash identically, however many further frames follow. -/
theorem claim_C8_truncation_invariance (u1 u2 : UReport) (componentName : String)
    (h : (get_crash_thread u1).take 16 = (get_crash_thread u2).take 16) :
    get_report_hash u1 componentName = get_report_hash u2 componentName := by
  unfold get_report_hash
  rw [h]

/-- Witness for C8: a 30-frame crash thread hashes like its 16-frame
truncation. -/
theorem claim_C8_truncation_invariance_witness :
    get_report_hash u_thread30 "faf" = get_report_hash u_thread16 "faf" :=
  claim_C8_truncation_invariance u_thread30 u_thread16 "faf" (by decide)

/-- Claim C2: on a non-empty crash thread, `hash_thread` returns hash type
NAMES when every frame carries a function name; otherwise HASHES when every
frame carries a function hash; and it fails with the
insufficient-signature-data error, returning no digest, when some frame
carries neither. -/
theorem claim_C2_strategy_selection (thread : List Frame) (hashbase : List String)
    (hne : thread ≠ []) :
    (thread.all (fun x => x.funcname.isSome) = true →
      ∃ digest extended,
        hash_thread thread hashbase = .ok (("NAMES", digest), extended)) ∧
    (thread.all (fun x => x.funcname.isSome) = false →
      thread.all (fun x => x.funchash.isSome) = true →
      ∃ digest extended,
        hash_thread thread hashbase = .ok (("HASHES", digest), extended)) ∧
    ((∃ f ∈ thread, f.funcname = none ∧ f.funchash = none) →
      hash_thread thread hashbase =
        .error "either function names or function hashes are required") := by
  refine ⟨?_, ?_, ?_⟩
  · intro h
    refine ⟨sha1_hexdigest (String.intercalate "\n"
      (hashbase ++ thread.map (fun x => frameLine (x.funcname.getD "") x.path))),
      hashbase ++ thread.map (fun x => frameLine (x.funcname.getD "") x.path), ?_⟩
    simp [hash_thread, h]
  · intro h1 h2
    refine ⟨sha1_hexdigest (String.intercalate "\n"
      (hashbase ++ thread.map (fun x => frameLine (x.funchash.getD "") x.path))),
      hashbase ++ thread.map (fun x => frameLine (x.funchash.getD "") x.path), ?_⟩
    simp [hash_thread, h1, h2]
  · rintro ⟨f, hf, hn, hh⟩
    have h1 : thread.all (fun x => x.funcname.isSome) = false := by
      simp only [List.all_eq_false]
      exact ⟨f, hf, by simp [hn]⟩
    have h2 : thread.all (fun x => x.funchash.isSome) = false := by
      simp only [List.all_eq_false]
      exact ⟨f, hf, by simp [hh]⟩
    simp [hash_thread, h1, h2]

/-- Witness for C2: a thread whose single frame carries a function name is
hashed with strategy NAMES. -/
theorem claim_C2_strategy_selection_witness :
    ∃ digest extended,
      hash_thread [c10_frame1] [] = .ok (("NAMES", digest), extended) :=
  (claim_C2_strategy_selection [c10_frame1] [] (by decide)).1 (by decide)

/-- Helper: `all` over a mapped list tests the composite predicate. -/
theorem all_map_eq {α β : Type} (l : List α) (f : α → β) (p : β → Bool) :
    (l.map f).all p = l.all (fun x => p (f x)) := by
  induction l with
  | nil => rfl
  | cons x xs ih => simp [ih]

/-- Helper for C1: `hash_thread` depends on the frames only through
`frameSig`, i.e. the (funcname, funchash, path) triples in order. -/
theorem hash_thread_congr (t1 t2 : List Frame) (hashbase : List String)
    (h : t1.map frameSig = t2.map frameSig) :
    hash_thread t1 hashbase = hash_thread t2 hashbase := by
  have h1 : t1.all (fun x => x.funcname.isSome) = t2.all (fun x => x.funcname.isSome) := by
    have := congrArg
      (fun l : List (Option String × Option String × String) =>
        l.all (fun q => q.1.isSome)) h
    simpa [all_map_eq, frameSig] using this
  have h2 : t1.all (fun x => x.funchash.isSome) = t2.all (fun x => x.funchash.isSome) := by
    have := congrArg
      (fun l : List (Option String × Option String × String) =>
        l.all (fun q => q.2.1.isSome)) h
    simpa [all_map_eq, frameSig] using this
  have h3 : t1.map (fun x => frameLine (x.funcname.getD "") x.path) =
      t2.map (fun x => frameLine (x.funcname.getD "") x.path) := by
    have := congrArg
      (List.map (fun q : Option String × Option String × String =>
        frameLine (q.1.getD "") q.2.2)) h
    simpa [List.map_map, frameSig, Function.comp] using this
  have h4 : t1.map (fun x => frameLine (x.funchash.getD "") x.path) =
      t2.map (fun x => frameLine (x.funchash.getD "") x.path) := by
    have := congrArg
      (List.map (fun q : Option String × Option String × String =>
        frameLine (q.2.1.getD "") q.2.2)) h
    simpa [List.map_map, frameSig, Function.comp] using this
  simp only [hash_thread]
  rw [h1, h2, h3, h4]

/-- Claim C1: `get_report_hash` is a deterministic function of the crash
thread frames' name-or-hash and path fields (in frame order, after sorting
and truncation) and the component-name seed; it reads no hidden state, so
hashing the same inputs twice yields the same (hash-type, digest) pair. -/
theorem claim_C1_hash_deterministic (u1 u2 : UReport) (componentName : String)
    (h : ((get_crash_thread u1).take 16).map frameSig =
         ((get_crash_thread u2).take 16).map frameSig) :
    get_report_hash u1 componentName = get_report_hash u2 componentName := by
  unfold get_report_hash
  rw [hash_thread_congr _ _ _ h]

/-- Witness for C1: two payloads that differ in build id and offset (which
the hash ignores) but agree on name, hash and path hash identically. -/
theorem claim_C1_hash_deterministic_witness :
    get_report_hash u_hash_a "faf" = get_report_hash u_hash_b "faf" :=
  claim_C1_hash_deterministic u_hash_a u_hash_b "faf" (by decide)

/-- Helper for C6: one pass of the frame loop preserves distinctness of the
natural keys of the entities created so far in this ingest. -/
theorem add_frame_preserves_keys (s : InternState) (frame : Frame)
    (hsrc : s.newSources.Pairwise (fun a b => sourceKey a ≠ sourceKey b))
    (hsym : s.newSymbols.Pairwise (fun a b => symbolKey a ≠ symbolKey b)) :
    (add_frame s frame).newSources.Pairwise (fun a b => sourceKey a ≠ sourceKey b) ∧
    (add_frame s frame).newSymbols.Pairwise (fun a b => symbolKey a ≠ symbolKey b) := by
  have hnewsrc : s.newSources.find? (fun ss => sourceKeyMatches ss frame) = none →
      ∀ nss : SymbolSource,
      sourceKey nss = (frame.buildid, frame.path, frame.offset) →
      (s.newSources ++ [nss]).Pairwise (fun a b => sourceKey a ≠ sourceKey b) := by
    intro hnone nss hkey
    rw [List.pairwise_append]
    refine ⟨hsrc, List.pairwise_singleton _ _, ?_⟩
    intro a ha b hb
    have hnp := List.find?_eq_none.mp hnone a ha
    simp only [List.mem_singleton] at hb
    subst hb
    rw [hkey]
    simp only [sourceKeyMatches, Bool.and_eq_true, beq_iff_eq] at hnp
    simp only [sourceKey, ne_eq, Prod.mk.injEq]
    intro hcontra
    exact hnp ⟨⟨hcontra.1, hcontra.2.1⟩, hcontra.2.2⟩
  unfold add_frame
  split
  · exact ⟨hsrc, hsym⟩
  · rename_i hfind1
    split
    · exact ⟨hsrc, hsym⟩
    · split
      · exact ⟨hnewsrc hfind1 _ rfl, hsym⟩
      · rename_i name hname
        dsimp only
        split
        · exact ⟨hnewsrc hfind1 _ rfl, hsym⟩
        · rename_i hsymfind
          refine ⟨hnewsrc hfind1 _ rfl, ?_⟩
          rw [List.pairwise_append]
          refine ⟨hsym, List.pairwise_singleton _ _, ?_⟩
          intro a ha b hb
          have hmem : a ∈ s.dbSymbols ++ s.newSymbols := List.mem_append_right _ ha
          have hnp := List.find?_eq_none.mp hsymfind a hmem
          simp only [List.mem_singleton] at hb
          subst hb
          simp only [Bool.and_eq_true, beq_iff_eq] at hnp
          simp only [symbolKey, ne_eq, Prod.mk.injEq]
          intro hcontra
          exact hnp ⟨hcontra.1, hcontra.2⟩

/-- Helper for C6: folding the frame loop preserves key distinctness. -/
theorem intern_foldl_keys (frames : List Frame) :
    ∀ s : InternState,
      s.newSources.Pairwise (fun a b => sourceKey a ≠ sourceKey b) →
      s.newSymbols.Pairwise (fun a b => symbolKey a ≠ symbolKey b) →
      (frames.foldl add_frame s).newSources.Pairwise (fun a b => sourceKey a ≠ sourceKey b) ∧
      (frames.foldl add_frame s).newSymbols.Pairwise (fun a b => symbolKey a ≠ symbolKey b) := by
  induction frames with
  | nil => exact fun s h1 h2 => ⟨h1, h2⟩
  | cons f fs ih =>
    intro s h1 h2
    have step := add_frame_preserves_keys s f h1 h2
    exact ih _ step.1 step.2

/-- Claim C6: within one ingest, the frame loop creates at most one
`SymbolSource` per (build id, path, offset) and at most one `Symbol` per
(name, normalized path): all entities added to the session carry pairwise
distinct natural keys, so a repeated frame signature reuses the entity
created earlier in the same ingest. -/
theorem claim_C6_intern_at_most_once (dbSymbols : List SymbolRow)
    (dbSources : List SymbolSource) (frames : List Frame) :
    (intern_frames dbSymbols dbSources frames).newSources.Pairwise
      (fun a b => sourceKey a ≠ sourceKey b) ∧
    (intern_frames dbSymbols dbSources frames).newSymbols.Pairwise
      (fun a b => symbolKey a ≠ symbolKey b) :=
  intern_foldl_keys frames _ (List.Pairwise.nil) (List.Pairwise.nil)

/-- Helper for C3: a key absent from a dict stays absent after popping
another key. -/
theorem plookup_filter_none (key : String) (p : String × PyVal → Bool) :
    ∀ l : List (String × PyVal), plookup key l = none →
      plookup key (l.filter p) = none := by
  intro l
  induction l with
  | nil => intro _; rfl
  | cons kv rest ih =>
    intro h
    obtain ⟨k', v⟩ := kv
    rw [plookup] at h
    split_ifs at h with hk
    · rw [List.filter_cons]
      split_ifs with hp
      · rw [plookup]
        split_ifs
        exact ih h
      · exact ih h

/-- Helper for C3: popping a different key keeps a dict entry present. -/
theorem mem_premove (key k : String) (v : PyVal) (clone : List (String × PyVal))
    (h : (key, v) ∈ clone) (hne : key ≠ k) : (key, v) ∈ premove k clone := by
  simp only [premove, List.mem_filter]
  exact ⟨h, by simp [hne]⟩

/-- Helper for C3: a mapping missing a mandatory field never validates; the
field walk either trips over an earlier error or reaches the missing field
and reports it. -/
theorem validateFields_missing_mandatory :
    ∀ (fields : List (String × Bool × Checker)) (clone : List (String × PyVal))
      (key : String) (sub : Checker),
      (key, true, sub) ∈ fields → plookup key clone = none →
      ∃ msg, validateFields clone (fieldsOfList fields) = .error msg := by
  intro fields
  induction fields with
  | nil =>
    intro clone key sub hmem _
    exact absurd hmem (List.not_mem_nil _)
  | cons fld rest ih =>
    intro clone key sub hmem hnone
    obtain ⟨k', m', c'⟩ := fld
    rw [fieldsOfList]
    rcases List.mem_cons.mp hmem with heq | htail
    · simp only [Prod.mk.injEq] at heq
      obtain ⟨h1, h2, h3⟩ := heq
      subst h1; subst h2; subst h3
      exact ⟨"missing mandatory element " ++ key, by simp [validateFields, hnone]⟩
    · cases hlook : plookup k' clone with
      | none =>
        cases m' with
        | true =>
          exact ⟨"missing mandatory element " ++ k', by simp [validateFields, hlook]⟩
        | false =>
          obtain ⟨msg, hmsg⟩ := ih clone key sub htail hnone
          exact ⟨msg, by simp [validateFields, hlook, hmsg]⟩
      | some value =>
        cases hval : validate value c' with
        | ok u =>
          cases u
          obtain ⟨msg, hmsg⟩ := ih (premove k' clone) key sub htail
            (plookup_filter_none key _ clone hnone)
          exact ⟨msg, by simp [validateFields, hlook, hval, hmsg]⟩
        | error msg =>
          exact ⟨"error validating " ++ k' ++ ": " ++ msg,
            by simp [validateFields, hlook, hval]⟩

/-- Helper for C3: a mapping carrying a key the schema does not declare
never validates; the undeclared entry survives every pop and is caught by
the final unknown-elements check unless an earlier error fires first. -/
theorem validateFields_unknown_key :
    ∀ (fields : List (String × Bool × Checker)) (clone : List (String × PyVal))
      (key : String) (v : PyVal),
      (key, v) ∈ clone → (∀ spec ∈ fields, spec.1 ≠ key) →
      ∃ msg, validateFields clone (fieldsOfList fields) = .error msg := by
  intro fields
  induction fields with
  | nil =>
    intro clone key v hmem _
    have hne : clone.isEmpty = false := by
      cases clone with
      | nil => exact absurd hmem (List.not_mem_nil _)
      | cons a l => rfl
    exact ⟨"unknown elements present: " ++ String.intercalate ", " (clone.map Prod.fst),
      by simp [fieldsOfList, validateFields, hne]⟩
  | cons fld rest ih =>
    intro clone key v hmem hnot
    obtain ⟨k', m', c'⟩ := fld
    have hk' : k' ≠ key := hnot (k', m', c') (List.mem_cons_self _ _)
    rw [fieldsOfList]
    cases hlook : plookup k' clone with
    | none =>
      cases m' with
      | true =>
        exact ⟨"missing mandatory element " ++ k', by simp [validateFields, hlook]⟩
      | false =>
        obtain ⟨msg, hmsg⟩ := ih clone key v hmem
          (fun spec hs => hnot spec (List.mem_cons_of_mem _ hs))
        exact ⟨msg, by simp [validateFields, hlook, hmsg]⟩
    | some value =>
      cases hval : validate value c' with
      | ok u =>
        cases u
        obtain ⟨msg, hmsg⟩ := ih (premove k' clone) key v
          (mem_premove key k' v clone hmem (Ne.symm hk'))
          (fun spec hs => hnot spec (List.mem_cons_of_mem _ hs))
        exact ⟨msg, by simp [validateFields, hlook, hval, hmsg]⟩
      | error msg =>
        exact ⟨"error validating " ++ k' ++ ": " ++ msg,
          by simp [validateFields, hlook, hval]⟩

/-- Claim C3: mapping validation fails whenever a mandatory field is absent
(naming the field when the walk reaches it first), skips absent optional
fields, and fails whenever an undeclared key is present; concretely, the
example payload validates, the same payload without `core_backtrace` fails
naming `core_backtrace`, and the payload with an extra top-level field
fails with the unknown-elements error. -/
theorem claim_C3_mapping_validation :
    (∀ (entries : List (String × PyVal)) (fields : List (String × Bool × Checker))
        (key : String) (sub : Checker),
      (key, true, sub) ∈ fields → plookup key entries = none →
      ∃ msg, validate (PyVal.dict entries)
        (Checker.dictC (fieldsOfList fields)) = .error msg) ∧
    (∀ (entries : List (String × PyVal)) (fields : List (String × Bool × Checker))
        (key : String) (v : PyVal),
      (key, v) ∈ entries → (∀ spec ∈ fields, spec.1 ≠ key) →
      ∃ msg, validate (PyVal.dict entries)
        (Checker.dictC (fieldsOfList fields)) = .error msg) ∧
    validate example_ureport (Checker.dictC (fieldsOfList UREPORT_CHECKER)) = .ok () ∧
    validate example_without_corebt (Checker.dictC (fieldsOfList UREPORT_CHECKER)) =
      .error "missing mandatory element core_backtrace" ∧
    validate example_with_extra_field (Checker.dictC (fieldsOfList UREPORT_CHECKER)) =
      .error "unknown elements present: foo" := by
  refine ⟨?_, ?_, by rfl, by rfl, by rfl⟩
  · intro entries fields key sub hmem hnone
    exact validateFields_missing_mandatory fields entries key sub hmem hnone
  · intro entries fields key v hmem hnot
    exact validateFields_unknown_key fields entries key v hmem hnot

/-- Witness for C3: an empty mapping checked against a schema with one
mandatory field is rejected. -/
theorem claim_C3_mapping_validation_witness :
    ∃ msg, validate (PyVal.dict [])
      (Checker.dictC (fieldsOfList [("a", true, Checker.intC)])) = .error msg :=
  claim_C3_mapping_validation.1 [] [("a", true, Checker.intC)] "a" Checker.intC
    (List.mem_singleton_self _) (by rfl)

/-- Counterexample to C9 as stated: in `c9_rows` two reports (ids 2 and 1)
share the (hash, hash-type, component) key, the id-2 row is enumerated
first, and the matcher lookup returns the id-2 report, not the lowest id. -/
theorem claim_C9_counterexample :
    (c9_rows.filter (fun row =>
      row.bthash_hash == "aa11" && row.bthash_type == "NAMES" &&
        row.report.component == "faf")).map (fun row => row.report.id) = [2, 1] ∧
    report_lookup c9_rows "aa11" "NAMES" "faf" = some c9_report_high ∧
    c9_report_high.id = 2 ∧ c9_report_low.id = 1 := by
  refine ⟨by decide, by decide, by decide, by decide⟩

/-- Claim C9, amended: when at least one stored report matches the
(hash, hash-type, component) key, the matcher lookup returns the first
matching row in the store's enumeration order (the query has no ordering
clause, so the lowest id is not guaranteed), and the ingest proceeds on the
matched path without crashing. -/
theorem claim_C9_first_match (rows : List ReportRow)
    (hash_hash hash_type componentName : String)
    (h : ∃ row ∈ rows, (row.bthash_hash == hash_hash &&
      row.bthash_type == hash_type &&
      row.report.component == componentName) = true) :
    ∃ row ∈ rows,
      report_lookup rows hash_hash hash_type componentName = some row.report ∧
      row.bthash_hash = hash_hash ∧ row.bthash_type = hash_type ∧
      row.report.component = componentName := by
  obtain ⟨row0, hmem0, hp0⟩ := h
  have hs : (rows.find? (fun row => row.bthash_hash == hash_hash &&
      row.bthash_type == hash_type &&
      row.report.component == componentName)).isSome := by
    rw [List.find?_isSome]
    exact ⟨row0, hmem0, hp0⟩
  obtain ⟨row, hrow⟩ := Option.isSome_iff_exists.mp hs
  have hmem := List.mem_of_find?_eq_some hrow
  have hprop := List.find?_some hrow
  simp only [Bool.and_eq_true, beq_iff_eq] at hprop
  refine ⟨row, hmem, ?_, hprop.1.1, hprop.1.2, hprop.2⟩
  unfold report_lookup
  rw [hrow]
  rfl

/-- Witness for the amended C9 at the concrete two-report store. -/
theorem claim_C9_first_match_witness :
    ∃ row ∈ c9_rows,
      report_lookup c9_rows "aa11" "NAMES" "faf" = some row.report ∧
      row.bthash_hash = "aa11" ∧ row.bthash_type = "NAMES" ∧
      row.report.component = "faf" :=
  claim_C9_first_match c9_rows "aa11" "NAMES" "faf"
    ⟨(⟨c9_report_high, "NAMES", "aa11"⟩ : ReportRow), by decide, by decide⟩

/-- Claim C10: `hash_thread` extends the hash-base list it is given with one
formatted line per frame before digesting; since Python evaluates the
default `hashbase=[]` once and shares that list object across calls, two
successive calls omitting the argument thread the extended list from the
first call into the second, whose digest then differs from the digest the
same call produces in isolation.  `get_report_hash` avoids this by passing
a fresh seed list on every call. -/
theorem claim_C10_shared_default_hashbase :
    (∀ (thread : List Frame) (hashbase : List String) r extended,
      hash_thread thread hashbase = Except.ok (r, extended) →
      ∃ added, extended = hashbase ++ added ∧ added.length = thread.length ∧
        r.2 = sha1_hexdigest (String.intercalate "\n" extended)) ∧
    (∃ r1 s1 r2 s2 r3 s3,
      hash_thread [c10_frame1] [] = Except.ok (r1, s1) ∧
      hash_thread [c10_frame2] s1 = Except.ok (r2, s2) ∧
      hash_thread [c10_frame2] [] = Except.ok (r3, s3) ∧
      r2.2 ≠ r3.2) := by
  constructor
  · intro thread hashbase r extended hok
    simp only [hash_thread] at hok
    split_ifs at hok with h1 h2
    · simp only [Except.ok.injEq, Prod.mk.injEq] at hok
      obtain ⟨hr, hext⟩ := hok
      subst hext
      subst hr
      exact ⟨thread.map (fun x => frameLine (x.funcname.getD "") x.path), rfl,
        by simp, rfl⟩
    · simp only [Except.ok.injEq, Prod.mk.injEq] at hok
      obtain ⟨hr, hext⟩ := hok
      subst hext
      subst hr
      exact ⟨thread.map (fun x => frameLine (x.funchash.getD "") x.path), rfl,
        by simp, rfl⟩
  · refine ⟨("NAMES", sha1_hexdigest "alpha @ /p1"), ["alpha @ /p1"],
      ("NAMES", sha1_hexdigest "alpha @ /p1\nbeta @ /p2"),
      ["alpha @ /p1", "beta @ /p2"],
      ("NAMES", sha1_hexdigest "beta @ /p2"), ["beta @ /p2"],
      rfl, rfl, rfl, ?_⟩
    set_option maxRecDepth 8000 in decide

/-- Witness for the universal part of C10: a concrete successful call whose
returned list extends the seed it was given. -/
theorem claim_C10_shared_default_hashbase_witness :
    ∃ added, ["faf", "alpha @ /p1"] = ["faf"] ++ added ∧
      added.length = [c10_frame1].length ∧
      ("NAMES", sha1_hexdigest (String.intercalate "\n" ["faf", "alpha @ /p1"])).2 =
        sha1_hexdigest (String.intercalate "\n" ["faf", "alpha @ /p1"]) :=
  claim_C10_shared_default_hashbase.1 [c10_frame1] ["faf"]
    ("NAMES", sha1_hexdigest (String.intercalate "\n" ["faf", "alpha @ /p1"]))
    ["faf", "alpha @ /p1"] (by rfl)

/-- Claim C7, on the code as written: the sentinel branch returns -1 exactly
for the non-positive uptimes (the schema makes `uptime` an integer, so
`uptime < 0.1` means `uptime ≤ 0`), and no logarithm is evaluated there; on
positive uptimes the code truncates the floating-point `math.log(uptime,
10)`, so whenever that float computation lands strictly below 3 at uptime
1000 — as IEEE-754 double arithmetic does — the bucket is 2, while
floor(log10(1000)) = 3: the code diverges from the claimed bucketing at
exact powers of ten whose float logarithm rounds down. -/
theorem claim_C7_uptime_bucket (log10f : Int → ℚ) :
    (∀ u : Int, u ≤ 0 → uptime_exp_code log10f u = -1) ∧
    (∀ u : Int, 1 ≤ u → uptime_exp_code log10f u = pyint (log10f u)) ∧
    (2 ≤ log10f 1000 → log10f 1000 < 3 → uptime_exp_code log10f 1000 = 2) := by
  have hbranch : ∀ u : Int, 1 ≤ u → uptime_exp_code log10f u = pyint (log10f u) := by
    intro u hu
    have hge : ¬((u : ℚ) < 1 / 10) := by
      push_neg
      calc (1 : ℚ) / 10 ≤ 1 := by norm_num
        _ ≤ (u : ℚ) := by exact_mod_cast hu
    unfold uptime_exp_code
    rw [if_neg hge]
  refine ⟨?_, hbranch, ?_⟩
  · intro u hu
    have hlt : (u : ℚ) < 1 / 10 := by
      have : (u : ℚ) ≤ 0 := by exact_mod_cast hu
      linarith
    unfold uptime_exp_code
    rw [if_pos hlt]
  · intro h2 h3
    rw [hbranch 1000 (by norm_num)]
    unfold pyint
    rw [if_pos (by linarith)]
    rw [Int.floor_eq_iff]
    constructor
    · exact_mod_cast h2
    · push_cast
      linarith

/-- Witness for C7 at the concrete IEEE double value of log(1000)/log(10)
and at uptime 0. -/
theorem claim_C7_uptime_bucket_witness :
    uptime_exp_code flog1000 0 = -1 ∧ uptime_exp_code flog1000 1000 = 2 :=
  ⟨(claim_C7_uptime_bucket flog1000).1 0 (le_refl 0),
   (claim_C7_uptime_bucket flog1000).2.2 (by norm_num [flog1000])
     (by norm_num [flog1000])⟩
